import Mathlib

/-!
# talk-to-db: the query session of `frontend/src/App.jsx`

A shallow embedding of the `App` component: its state variables, its event
handlers, the part of its render output that shows a result, and the
transition system that the rendered user interface generates.

Modelling conventions.

* A JavaScript string is its sequence of UTF-16 code units (`JSString`).
  `jsString` embeds a Lean string literal.
* A JavaScript value that can come out of `res.json()` or sit in a state
  variable is a `JSValue`.  An object is the sequence of its own enumerable
  properties in the order in which `Object.keys` enumerates them.  Numbers
  are integer valued; no definition looks at a number except through its
  truthiness.
* `handleSubmit` is an `async` function.  Its body up to the first `await`
  runs inside the click event (`handleSubmit`); the rest runs when the
  awaited gateway call settles (`handleSubmitSettle`).  No state is touched
  between `await fetch(...)` and `await res.json()`, so both awaits form one
  settling event.
* Every handler is invoked from the latest render, so the variables it closes
  over are the current state.
-/

namespace TalkToDb

/-! ## JavaScript values -/

/-- A JavaScript string: its UTF-16 code units. -/
abbrev JSString := List Nat

/-- UTF-16 code units of one Unicode scalar value. -/
def utf16 (c : Char) : List Nat :=
  if c.toNat < 65536 then [c.toNat]
  else [55296 + (c.toNat - 65536) / 1024, 56320 + (c.toNat - 65536) % 1024]

/-- The JavaScript string written as a Lean string literal. -/
def jsString (s : String) : JSString := s.data.flatMap utf16

/-- JavaScript values: `undefined`, and what `JSON.parse` can produce. -/
inductive JSValue where
  | undefined
  | null
  | bool (b : Bool)
  | num (n : Int)
  | str (s : JSString)
  | arr (xs : List JSValue)
  | obj (props : List (JSString × JSValue))

/-- A thrown JavaScript exception. -/
structure JSError where
  name : JSString
  message : JSString

/-- The `TypeError` raised by the engine itself. -/
def typeError : JSError := ⟨jsString "TypeError", []⟩

namespace JSValue

/-- `ToBoolean`. -/
def truthy : JSValue → Bool
  | undefined => false
  | null => false
  | bool b => b
  | num n => decide (n ≠ 0)
  | str s => decide (s ≠ [])
  | arr _ => true
  | obj _ => true

/-- The expression `a || b`. -/
def or (a b : JSValue) : JSValue := if a.truthy then a else b

/-- Property read `v.k` for the keys `App` reads (`error`, `data`, `sql`).
Reading a property of `null` or `undefined` throws; none of the three keys is
defined on a built-in prototype, so on every other value the read is an
own-property lookup. -/
def getProp (v : JSValue) (k : JSString) : Except JSError JSValue :=
  match v with
  | undefined => .error typeError
  | null => .error typeError
  | obj props => .ok ((props.lookup k).getD undefined)
  | _ => .ok undefined

/-- `Object.keys(v)`; throws on `null` and `undefined`. -/
def objectKeys : JSValue → Except JSError (List JSString)
  | undefined => .error typeError
  | null => .error typeError
  | obj props => .ok (props.map Prod.fst)
  | arr xs => .ok ((List.range xs.length).map fun i => jsString (toString i))
  | str s => .ok ((List.range s.length).map fun i => jsString (toString i))
  | _ => .ok []

/-- `Object.values(v)`; throws on `null` and `undefined`. -/
def objectValues : JSValue → Except JSError (List JSValue)
  | undefined => .error typeError
  | null => .error typeError
  | obj props => .ok (props.map Prod.snd)
  | arr xs => .ok xs
  | str s => .ok (s.map fun u => str [u])
  | _ => .ok []

end JSValue

/-- The object `{ ...o, [k]: v }`: an existing key keeps its place, a new key
goes last. -/
def objSet {α : Type} (o : List (JSString × α)) (k : JSString) (v : α) :
    List (JSString × α) :=
  match o with
  | [] => [(k, v)]
  | (k0, v0) :: rest => if k0 = k then (k, v) :: rest else (k0, v0) :: objSet rest k v

/-! ## `String.prototype.trim` -/

/-- Code units that `trim` strips: ECMAScript WhiteSpace and LineTerminator. -/
def isTrimUnit (u : Nat) : Bool :=
  u = 9 || u = 10 || u = 11 || u = 12 || u = 13 || u = 32 || u = 160 ||
  u = 5760 || (8192 ≤ u && u ≤ 8202) || u = 8232 || u = 8233 || u = 8239 ||
  u = 8287 || u = 12288 || u = 65279

/-- `s.trim()`. -/
def jsTrim (s : JSString) : JSString :=
  ((s.dropWhile isTrimUnit).reverse.dropWhile isTrimUnit).reverse

/-! ## State of the component -/

/-- The names of the five connection inputs (`App.jsx` line 81). -/
def connectionFields : List JSString :=
  [jsString "host", jsString "port", jsString "user", jsString "password",
   jsString "database"]

/-- The `useState` variables of `App`. -/
structure State where
  prompt : JSString
  responseData : JSValue
  error : JSValue
  loading : Bool
  connection : List (JSString × JSString)
  showModal : Bool

/-- The state of the first render. -/
def State.initial : State where
  prompt := []
  responseData := .null
  error := .str []
  loading := false
  connection := connectionFields.map fun f => (f, [])
  showModal := false

/-- Severity of a toast. -/
inductive Severity where
  | error
  | success
  | info
  deriving DecidableEq

/-- One call of `toast.error`, `toast.success` or `toast.info`. -/
structure Toast where
  severity : Severity
  content : JSValue

/-- One call of `fetch`: the endpoint, and the two members of the JSON body. -/
structure Request where
  url : JSString
  method : JSString
  contentType : JSString
  prompt : JSString
  connection : List (JSString × JSString)

/-- How the gateway call awaited by `handleSubmit` settles. -/
inductive Outcome where
  | fetchRejected (err : JSError)
  | jsonRejected (err : JSError)
  | decoded (result : JSValue)

def msgEmptyPrompt : JSString := jsString "Please enter a prompt before submitting."
def msgSuccess : JSString := jsString "Query executed successfully!"
def msgFailed : JSString := jsString "Failed to connect to server"
def msgCleared : JSString := jsString "Cleared!"
def msgCopied : JSString := jsString "Copied to clipboard!"
def keyError : JSString := jsString "error"
def keyData : JSString := jsString "data"
def keySql : JSString := jsString "sql"

/-! ## Event handlers -/

/-- What `handleSubmit` does inside the click event: the new state, the toasts
it emits and the request it issues, if any. -/
def handleSubmit (s : State) : State × List Toast × Option Request :=
  if jsTrim s.prompt = [] then
    (s, [⟨.error, .str msgEmptyPrompt⟩], none)
  else
    ({ s with loading := true, error := .str [], responseData := .null }, [],
     some { url := jsString "http://localhost:8000/query"
            method := jsString "POST"
            contentType := jsString "application/json"
            prompt := s.prompt
            connection := s.connection })

/-- The value of `await res.json()`, or the exception the awaits throw. -/
def awaitResult : Outcome → Except JSError JSValue
  | .fetchRejected e => .error e
  | .jsonRejected e => .error e
  | .decoded r => .ok r

/-- The `try` block of `handleSubmit` from the point where the gateway call
settles. -/
def submitTry (o : Outcome) (s : State) : Except JSError (State × List Toast) := do
  let result ← awaitResult o
  let e ← result.getProp keyError
  if e.truthy then
    pure ({ s with error := e }, [⟨.error, e⟩])
  else
    pure ({ s with responseData := result }, [⟨.success, .str msgSuccess⟩])

/-- The rest of `handleSubmit` after the gateway call settles: the `try` block,
the `catch` block, and `setLoading(false)`. -/
def handleSubmitSettle (o : Outcome) (s : State) : State × List Toast :=
  let r : State × List Toast :=
    match submitTry o s with
    | .ok r => r
    | .error _ => ({ s with error := .str msgFailed }, [⟨.error, .str msgFailed⟩])
  ({ r.1 with loading := false }, r.2)

def handleClear (s : State) : State × List Toast :=
  ({ s with prompt := [], responseData := .null, error := .str [] },
   [⟨.info, .str msgCleared⟩])

/-- The handler `handleConnectionChange`, applied to an event whose target has
the given name and value. -/
def handleConnectionChange (name value : JSString) (s : State) : State :=
  { s with connection := objSet s.connection name value }

/-- The `onChange` handler of the prompt textarea. -/
def setPrompt (value : JSString) (s : State) : State :=
  { s with prompt := value }

def setShowModal (b : Bool) (s : State) : State :=
  { s with showModal := b }

/-- The handler `handleCopy`: the text written to the clipboard and the toast. -/
def handleCopy (text : JSValue) : JSValue × List Toast :=
  (text, [⟨.success, .str msgCopied⟩])

/-! ## The result display -/

/-- The response block of the render output. -/
structure ResultView where
  /-- Child of the `pre` element. -/
  sql : JSValue
  /-- Children of the `th` elements of the header row. -/
  head : List JSString
  /-- Children of the `td` elements, one list per `tr` of the body. -/
  body : List (List JSValue)

/-- The header row and the body rows of the table, from `responseData.data`.
For `null` and `undefined` both `?.` short-circuit: the header has the keys of
the empty object and the body has no rows.  For an array the header has the
keys of `data[0]`, or of the empty object when `data[0]` is falsy, and the body has `Object.values(row)` for each
row.  For every other value the header expression does not throw, and
`data.map` is not a function, so the call throws. -/
def renderTable (data : JSValue) : Except JSError (List JSString × List (List JSValue)) :=
  match data with
  | .undefined => do
      let head ← (JSValue.or .undefined (.obj [])).objectKeys
      pure (head, [])
  | .null => do
      let head ← (JSValue.or .undefined (.obj [])).objectKeys
      pure (head, [])
  | .arr rows => do
      let head ← (JSValue.or (rows.headD .undefined) (.obj [])).objectKeys
      let body ← rows.mapM JSValue.objectValues
      pure (head, body)
  | _ => .error typeError

/-- The block guarded by `responseData &&`: nothing when `responseData` is
falsy, otherwise the SQL text and the table. -/
def renderResponse (responseData : JSValue) : Except JSError (Option ResultView) :=
  if responseData.truthy then do
    let sql ← responseData.getProp keySql
    let data ← responseData.getProp keyData
    let t ← renderTable data
    pure (some { sql := sql, head := t.1, body := t.2 })
  else
    pure none

/-! ## The transition system of the rendered interface -/

/-- A session: the component state, the gateway calls whose settling is still
pending, and the log of everything the session has sent out. -/
structure Config where
  state : State
  inFlight : List Request
  sent : List Request
  toasts : List Toast
  clipboard : List JSValue

def Config.initial : Config where
  state := State.initial
  inFlight := []
  sent := []
  toasts := []
  clipboard := []

/-- An invocation of `handleSubmit`, by whatever caller. -/
def applySubmit (c : Config) : Config :=
  let r := handleSubmit c.state
  { c with state := r.1, toasts := c.toasts ++ r.2.1,
           inFlight := c.inFlight ++ r.2.2.toList, sent := c.sent ++ r.2.2.toList }

/-- The gateway call at position `i` of `inFlight` settles with outcome `o`. -/
def applySettle (i : Nat) (o : Outcome) (c : Config) : Config :=
  let r := handleSubmitSettle o c.state
  { c with state := r.1, toasts := c.toasts ++ r.2, inFlight := c.inFlight.eraseIdx i }

def applyClear (c : Config) : Config :=
  let r := handleClear c.state
  { c with state := r.1, toasts := c.toasts ++ r.2 }

/-- The Copy button: `handleCopy(responseData.sql)`. -/
def applyCopy (c : Config) : Option Config :=
  match c.state.responseData.getProp keySql with
  | .ok text =>
      let r := handleCopy text
      some { c with clipboard := c.clipboard ++ [r.1], toasts := c.toasts ++ r.2 }
  | .error _ => none

/-- What can happen to a rendered `App`. -/
inductive Event where
  | clickRunQuery
  | clickClear
  | changePrompt (value : JSString)
  | changeConnection (name value : JSString)
  | clickCopy
  | openModal
  | closeModal
  | settle (i : Nat) (o : Outcome)

/-- One event.  `none` when the interface cannot produce the event: the Run
Query button is `disabled` while `loading`, the connection inputs are the five
of `connectionFields`, the Copy button exists only inside the block guarded by
`responseData &&`, and only a pending gateway call can settle.  An exception
thrown while rendering does not disable any event here, so the sessions of
`run` include every session of the running component. -/
def step (c : Config) : Event → Option Config
  | .clickRunQuery => if c.state.loading then none else some (applySubmit c)
  | .clickClear => some (applyClear c)
  | .changePrompt v => some { c with state := setPrompt v c.state }
  | .changeConnection n v =>
      if n ∈ connectionFields then
        some { c with state := handleConnectionChange n v c.state }
      else none
  | .clickCopy => if c.state.responseData.truthy then applyCopy c else none
  | .openModal => some { c with state := setShowModal true c.state }
  | .closeModal => some { c with state := setShowModal false c.state }
  | .settle i o => if i < c.inFlight.length then some (applySettle i o c) else none

/-- A sequence of events, from left to right. -/
def run (c : Config) : List Event → Option Config
  | [] => some c
  | e :: es => (step c e).bind fun c1 => run c1 es

/-- One event when the handlers are invoked by any caller: as `step`, but
`handleSubmit` runs whether or not `loading` is true. -/
def stepAnyCaller (c : Config) : Event → Option Config
  | .clickRunQuery => some (applySubmit c)
  | e => step c e

/-- A sequence of handler invocations by any caller, from left to right. -/
def runAnyCaller (c : Config) : List Event → Option Config
  | [] => some c
  | e :: es => (stepAnyCaller c e).bind fun c1 => runAnyCaller c1 es

/-- One whole submission with nothing in between: `handleSubmit`, then the
settling of its gateway call.  The toasts are those of both parts. -/
def submitThenSettle (s : State) (o : Outcome) : State × List Toast :=
  let r := handleSubmit s
  let r2 := handleSubmitSettle o r.1
  (r2.1, r.2.1 ++ r2.2)

/-! ## The invariant -/

/-- The invariant of the sessions that the interface generates. -/
def Inv (c : Config) : Prop :=
  c.inFlight.length ≤ 1 ∧
    (c.state.loading = true ↔ c.inFlight.length = 1) ∧
    (c.state.loading = true → c.state.responseData = .null ∧ c.state.error = .str []) ∧
    (c.state.responseData = .null ∨ c.state.error = .str [])

/-! ## Example data -/

def rowAnn : List (JSString × JSValue) :=
  [(jsString "id", .num 1), (jsString "name", .str (jsString "Ann"))]

def rowBo : List (JSString × JSValue) :=
  [(jsString "id", .num 2), (jsString "name", .str (jsString "Bo"))]

def sqlUsers : JSValue := .str (jsString "SELECT * FROM users;")

/-- The payload of the scenario, its row sequence under the key `rows`. -/
def payloadRows : JSValue :=
  .obj [(keySql, sqlUsers), (jsString "rows", .arr [.obj rowAnn, .obj rowBo])]

/-- The payload of the scenario, its row sequence under the key `data`. -/
def payloadData : List (JSString × JSValue) :=
  [(keySql, sqlUsers), (keyData, .arr ([rowAnn, rowBo].map .obj))]

/-- The initial state with a prompt typed in. -/
def withPrompt (p : String) : State := setPrompt (jsString p) State.initial

/-- The session in which a prompt was typed and Run Query was clicked. -/
def submittedConfig : Config := applySubmit { Config.initial with state := withPrompt "q" }

/-- A session: a query succeeds, a second one is cleared while pending and then
fails. -/
def sessionEvents : List Event :=
  [.changePrompt (jsString "q"), .clickRunQuery, .settle 0 (.decoded (.obj payloadData)),
   .clickRunQuery, .clickClear,
   .settle 0 (.fetchRejected ⟨jsString "TypeError", jsString "Failed to fetch"⟩)]

/-- The session that `sessionEvents` leads to. -/
def sessionEnd : Config :=
  applySettle 0 (.fetchRejected ⟨jsString "TypeError", jsString "Failed to fetch"⟩)
    (applyClear (applySubmit (applySettle 0 (.decoded (.obj payloadData)) submittedConfig)))

/-- The session in which a prompt was typed, Run Query and then Clear were
clicked, and a new prompt was typed while the gateway call is still pending. -/
def clearedThenEdited : Config :=
  { applyClear submittedConfig with
      state := setPrompt (jsString "x") (applyClear submittedConfig).state }

/-- Number of header cells and number of cells of each body row. -/
def tableShape : Except JSError (List JSString × List (List JSValue)) → Option (Nat × List Nat)
  | .ok t => some (t.1.length, t.2.map List.length)
  | .error _ => none

/-! ## Helper lemmas -/

theorem mem_dropWhile_of_not {α : Type} (p : α → Bool) (l : List α) (u : α)
    (hu : u ∈ l) (hp : ¬ p u = true) : u ∈ l.dropWhile p := by
  induction l with
  | nil => cases hu
  | cons a t ih =>
    rw [List.dropWhile_cons]
    split
    · rename_i ha
      rcases List.mem_cons.1 hu with rfl | hut
      · exact absurd ha hp
      · exact ih hut
    · exact hu

theorem jsTrim_eq_nil_iff (s : JSString) :
    jsTrim s = [] ↔ ∀ u ∈ s, isTrimUnit u = true := by
  unfold jsTrim
  rw [List.reverse_eq_nil_iff, List.dropWhile_eq_nil_iff]
  constructor
  · intro h u hu
    by_contra hne
    exact hne (h u (List.mem_reverse.2 (mem_dropWhile_of_not _ _ _ hu hne)))
  · intro h u hu
    exact h u ((List.dropWhile_sublist _).subset (List.mem_reverse.1 hu))

theorem lookup_objSet_self {α : Type} (o : List (JSString × α)) (k : JSString) (v : α) :
    (objSet o k v).lookup k = some v := by
  induction o with
  | nil => simp [objSet, List.lookup]
  | cons p t ih =>
    obtain ⟨k0, v0⟩ := p
    unfold objSet
    by_cases h : k0 = k
    · simp [h, List.lookup]
    · have h2 : (k == k0) = false := by
        simpa using fun e : k = k0 => h e.symm
      simp [h, List.lookup, h2, ih]

theorem lookup_objSet_other {α : Type} (o : List (JSString × α)) (k g : JSString) (v : α)
    (hg : g ≠ k) : (objSet o k v).lookup g = o.lookup g := by
  induction o with
  | nil =>
    have h2 : (g == k) = false := by simpa using hg
    simp [objSet, List.lookup, h2]
  | cons p t ih =>
    obtain ⟨k0, v0⟩ := p
    unfold objSet
    by_cases h : k0 = k
    · subst h
      have h2 : (g == k0) = false := by simpa using hg
      simp [List.lookup, h2]
    · simp only [h, if_false, List.lookup]
      cases hgk : (g == k0)
      · exact ih
      · rfl

theorem handleSubmit_nonblank (s : State) (h : jsTrim s.prompt ≠ []) :
    handleSubmit s =
      ({ s with loading := true, error := .str [], responseData := .null }, [],
       some { url := jsString "http://localhost:8000/query"
              method := jsString "POST"
              contentType := jsString "application/json"
              prompt := s.prompt
              connection := s.connection }) := by
  unfold handleSubmit
  rw [if_neg h]

theorem getProp_obj (props : List (JSString × JSValue)) (k : JSString) (v : JSValue)
    (h : props.lookup k = some v) : (JSValue.obj props).getProp k = .ok v := by
  simp [JSValue.getProp, h]

theorem handleSubmitSettle_rejected (o : Outcome) (s : State) {e : JSError}
    (h : awaitResult o = .error e) :
    handleSubmitSettle o s =
      ({ s with error := .str msgFailed, loading := false }, [⟨.error, .str msgFailed⟩]) := by
  simp [handleSubmitSettle, submitTry, h, bind, Except.bind]

theorem handleSubmitSettle_error (s : State) (result e : JSValue)
    (h : result.getProp keyError = .ok e) (ht : e.truthy = true) :
    handleSubmitSettle (.decoded result) s =
      ({ s with error := e, loading := false }, [⟨.error, e⟩]) := by
  simp [handleSubmitSettle, submitTry, awaitResult, h, ht, bind, Except.bind, pure, Except.pure]

theorem handleSubmitSettle_success (s : State) (result e : JSValue)
    (h : result.getProp keyError = .ok e) (ht : e.truthy = false) :
    handleSubmitSettle (.decoded result) s =
      ({ s with responseData := result, loading := false },
       [⟨.success, .str msgSuccess⟩]) := by
  simp [handleSubmitSettle, submitTry, awaitResult, h, ht, bind, Except.bind, pure, Except.pure]

theorem mapM_objectValues_obj (rows : List (List (JSString × JSValue))) :
    (rows.map JSValue.obj).mapM JSValue.objectValues =
      .ok (rows.map (List.map Prod.snd)) := by
  induction rows with
  | nil => rfl
  | cons r t ih =>
    rw [List.map_cons, List.mapM_cons, ih]
    rfl

theorem renderTable_objects (rows : List (List (JSString × JSValue))) :
    renderTable (.arr (rows.map JSValue.obj)) =
      .ok ((rows.headD []).map Prod.fst, rows.map (List.map Prod.snd)) := by
  unfold renderTable
  simp only [mapM_objectValues_obj]
  cases rows with
  | nil => rfl
  | cons r t => rfl

theorem handleSubmitSettle_writes (o : Outcome) (s : State) :
    (∃ e, (handleSubmitSettle o s).1 = { s with error := e, loading := false }) ∨
      (∃ r, (handleSubmitSettle o s).1 = { s with responseData := r, loading := false }) := by
  cases hr : awaitResult o with
  | error e =>
    rw [handleSubmitSettle_rejected o s hr]
    exact Or.inl ⟨_, rfl⟩
  | ok result =>
    have ho : o = .decoded result := by
      cases o <;> simp [awaitResult] at hr
      rw [hr]
    subst ho
    cases hg : result.getProp keyError with
    | error e =>
      left
      refine ⟨.str msgFailed, ?_⟩
      simp [handleSubmitSettle, submitTry, awaitResult, hg, bind, Except.bind]
    | ok e =>
      cases ht : e.truthy with
      | true =>
        rw [handleSubmitSettle_error s result e hg ht]
        exact Or.inl ⟨_, rfl⟩
      | false =>
        rw [handleSubmitSettle_success s result e hg ht]
        exact Or.inr ⟨_, rfl⟩

theorem inv_initial : Inv Config.initial := by
  refine ⟨Nat.zero_le _, ?_, ?_, Or.inl rfl⟩
  · constructor
    · intro h; cases h
    · intro h; cases h
  · intro h; cases h

theorem inv_applySubmit (c : Config) (hc : Inv c) (hl : c.state.loading = false) :
    Inv (applySubmit c) := by
  obtain ⟨h1, h2, h3, h4⟩ := hc
  have hlen : c.inFlight.length = 0 := by
    have hne : c.inFlight.length ≠ 1 := fun h => by
      have := h2.2 h
      rw [hl] at this
      cases this
    omega
  have hnil : c.inFlight = [] := List.length_eq_zero.1 hlen
  by_cases hb : jsTrim c.state.prompt = []
  · have hs : handleSubmit c.state =
        (c.state, [⟨.error, .str msgEmptyPrompt⟩], none) := by
      unfold handleSubmit
      rw [if_pos hb]
    unfold applySubmit
    simp only [hs, Option.toList, List.append_nil]
    exact ⟨h1, h2, h3, h4⟩
  · unfold applySubmit
    simp only [handleSubmit_nonblank c.state hb, hnil, Option.toList, List.nil_append]
    refine ⟨Nat.le_refl _, ⟨fun _ => rfl, fun _ => rfl⟩, fun _ => ⟨rfl, rfl⟩, Or.inl rfl⟩

theorem inv_applySettle (c : Config) (hc : Inv c) (i : Nat) (o : Outcome)
    (hi : i < c.inFlight.length) : Inv (applySettle i o c) := by
  obtain ⟨h1, h2, h3, _⟩ := hc
  have hlen : c.inFlight.length = 1 := by omega
  obtain ⟨hr, he⟩ := h3 (h2.2 hlen)
  have hlen2 : (c.inFlight.eraseIdx i).length = 0 := by
    rw [List.length_eraseIdx, if_pos hi, hlen]
  unfold applySettle
  simp only [Inv, hlen2]
  rcases handleSubmitSettle_writes o c.state with ⟨e, hw⟩ | ⟨r, hw⟩
  · rw [hw]
    exact ⟨Nat.zero_le _, ⟨fun h => (by cases h), fun h => (by cases h)⟩,
      fun h => (by cases h), Or.inl hr⟩
  · rw [hw]
    exact ⟨Nat.zero_le _, ⟨fun h => (by cases h), fun h => (by cases h)⟩,
      fun h => (by cases h), Or.inr he⟩

theorem inv_step (c c1 : Config) (e : Event) (hc : Inv c) (hs : step c e = some c1) :
    Inv c1 := by
  cases e with
  | clickRunQuery =>
    simp only [step] at hs
    cases hl : c.state.loading with
    | true => simp [hl] at hs
    | false =>
      simp only [hl, Bool.false_eq_true, if_false, Option.some.injEq] at hs
      rw [← hs]
      exact inv_applySubmit c hc hl
  | clickClear =>
    simp only [step, Option.some.injEq] at hs
    rw [← hs]
    obtain ⟨h1, h2, _, _⟩ := hc
    exact ⟨h1, h2, fun _ => ⟨rfl, rfl⟩, Or.inl rfl⟩
  | changePrompt v =>
    simp only [step, Option.some.injEq] at hs
    rw [← hs]
    exact hc
  | changeConnection n v =>
    simp only [step] at hs
    split at hs
    · simp only [Option.some.injEq] at hs
      rw [← hs]
      exact hc
    · cases hs
  | clickCopy =>
    simp only [step, applyCopy] at hs
    split at hs
    · split at hs
      · simp only [Option.some.injEq] at hs
        rw [← hs]
        exact hc
      · cases hs
    · cases hs
  | openModal =>
    simp only [step, Option.some.injEq] at hs
    rw [← hs]
    exact hc
  | closeModal =>
    simp only [step, Option.some.injEq] at hs
    rw [← hs]
    exact hc
  | settle i o =>
    simp only [step] at hs
    split at hs
    · rename_i hi
      simp only [Option.some.injEq] at hs
      rw [← hs]
      exact inv_applySettle c hc i o hi
    · cases hs

theorem inv_run (es : List Event) (c c1 : Config) (hc : Inv c) (hr : run c es = some c1) :
    Inv c1 := by
  induction es generalizing c with
  | nil =>
    simp only [run, Option.some.injEq] at hr
    rw [← hr]
    exact hc
  | cons e t ih =>
    simp only [run] at hr
    cases hstep : step c e with
    | none => simp [hstep] at hr
    | some c2 =>
      rw [hstep] at hr
      exact ih c2 (inv_step c c2 e hc hstep) hr

/-! ## C1 -/

/-- C1: for every session and every prompt that is empty or consists only of
units that `trim` strips, `handleSubmit` issues no request, leaves the whole
state as it was, and emits exactly one toast, the validation notice. -/
theorem C1_handleSubmit_blank_prompt (c : Config)
    (h : ∀ u ∈ c.state.prompt, isTrimUnit u = true) :
    handleSubmit c.state =
        (c.state, [⟨.error, .str msgEmptyPrompt⟩], none) ∧
      applySubmit c = { c with toasts := c.toasts ++ [⟨.error, .str msgEmptyPrompt⟩] } := by
  have h1 : handleSubmit c.state =
      (c.state, [⟨.error, .str msgEmptyPrompt⟩], none) := by
    unfold handleSubmit
    rw [if_pos ((jsTrim_eq_nil_iff _).2 h)]
  refine ⟨h1, ?_⟩
  simp [applySubmit, h1]

theorem C1_handleSubmit_blank_prompt_witness :
    handleSubmit (withPrompt " \t\n") =
        (withPrompt " \t\n", [⟨.error, .str msgEmptyPrompt⟩], none) ∧
      applySubmit { Config.initial with state := withPrompt " \t\n" } =
        { Config.initial with
            state := withPrompt " \t\n"
            toasts := [⟨.error, .str msgEmptyPrompt⟩] } :=
  C1_handleSubmit_blank_prompt { Config.initial with state := withPrompt " \t\n" }
    (by decide)

/-! ## C2 -/

/-- C2, as stated, fails for the empty message: the payload whose `error` is
the empty string is stored as the result and a success toast is emitted. -/
theorem C2_counterexample :
    jsTrim (withPrompt "show all users").prompt ≠ [] ∧
      (submitThenSettle (withPrompt "show all users")
        (.decoded (.obj [(keyError, .str [])]))).1.responseData ≠ .null ∧
      (submitThenSettle (withPrompt "show all users")
        (.decoded (.obj [(keyError, .str [])]))).1.responseData =
          .obj [(keyError, .str [])] ∧
      (submitThenSettle (withPrompt "show all users")
        (.decoded (.obj [(keyError, .str [])]))).2 = [⟨.success, .str msgSuccess⟩] := by
  refine ⟨by decide, ?_, rfl, rfl⟩
  exact fun h => JSValue.noConfusion h

/-- C2, amended: for every state with a non-blank prompt and every non-empty
string `msg`, if the gateway call resolves with a decoded object whose `error`
property is `msg`, then after settling `error` is `msg`, `responseData` is
`null`, `loading` is false, nothing else has changed, and exactly one toast was
emitted, an error toast carrying `msg`. -/
theorem C2_error_payload (s : State) (msg : JSString)
    (props : List (JSString × JSValue))
    (hp : jsTrim s.prompt ≠ []) (hm : msg ≠ [])
    (he : props.lookup keyError = some (.str msg)) :
    submitThenSettle s (.decoded (.obj props)) =
      ({ s with error := .str msg, responseData := .null, loading := false },
       [⟨.error, .str msg⟩]) := by
  unfold submitThenSettle
  rw [handleSubmit_nonblank s hp]
  simp only [List.nil_append]
  rw [handleSubmitSettle_error _ _ (.str msg) (getProp_obj _ _ _ he)
    (by simp [JSValue.truthy, hm])]

theorem C2_error_payload_witness :
    submitThenSettle (withPrompt "show all users")
        (.decoded (.obj [(keyError, .str (jsString "table not found"))])) =
      ({ withPrompt "show all users" with
           error := .str (jsString "table not found")
           responseData := .null
           loading := false },
       [⟨.error, .str (jsString "table not found")⟩]) :=
  C2_error_payload (withPrompt "show all users") (jsString "table not found")
    [(keyError, .str (jsString "table not found"))] (by decide) (by decide) rfl

/-! ## C3 -/

/-- C3: for every state with a non-blank prompt and every exception, if `fetch`
rejects or `res.json()` throws, the settled state has `error` equal to the
fixed message, `responseData` `null` and `loading` false, nothing else has
changed, and exactly one toast was emitted, an error toast with the fixed
message.  The continuation is a total function: the exception is caught. -/
theorem C3_transport_failure (s : State) (err : JSError)
    (hp : jsTrim s.prompt ≠ []) :
    submitThenSettle s (.fetchRejected err) =
        ({ s with error := .str msgFailed, responseData := .null, loading := false },
         [⟨.error, .str msgFailed⟩]) ∧
      submitThenSettle s (.jsonRejected err) =
        ({ s with error := .str msgFailed, responseData := .null, loading := false },
         [⟨.error, .str msgFailed⟩]) := by
  unfold submitThenSettle
  rw [handleSubmit_nonblank s hp]
  simp only [List.nil_append]
  rw [handleSubmitSettle_rejected (.fetchRejected err) _ rfl,
    handleSubmitSettle_rejected (.jsonRejected err) _ rfl]
  exact ⟨rfl, rfl⟩

theorem C3_transport_failure_witness :
    submitThenSettle (withPrompt "show all users")
          (.fetchRejected ⟨jsString "TypeError", jsString "Failed to fetch"⟩) =
        ({ withPrompt "show all users" with
             error := .str msgFailed, responseData := .null, loading := false },
         [⟨.error, .str msgFailed⟩]) ∧
      submitThenSettle (withPrompt "show all users")
          (.jsonRejected ⟨jsString "TypeError", jsString "Failed to fetch"⟩) =
        ({ withPrompt "show all users" with
             error := .str msgFailed, responseData := .null, loading := false },
         [⟨.error, .str msgFailed⟩]) :=
  C3_transport_failure (withPrompt "show all users")
    ⟨jsString "TypeError", jsString "Failed to fetch"⟩ (by decide)

/-! ## C5 -/

/-- C5, as stated, fails in the Submitting state: `handleClear` in the session
where Run Query was just clicked leaves `loading` true. -/
theorem C5_counterexample :
    submittedConfig.state.loading = true ∧
      (handleClear submittedConfig.state).1.loading = true := by
  exact ⟨rfl, rfl⟩

/-- C5, amended: for every session state, `handleClear` yields a state with
`prompt` empty, `responseData` `null` and `error` empty, and leaves `loading`
(and everything else) as it was; it emits one info toast. -/
theorem C5_handleClear (s : State) :
    handleClear s =
        ({ s with prompt := [], responseData := .null, error := .str [] },
         [⟨.info, .str msgCleared⟩]) ∧
      (handleClear s).1.prompt = [] ∧
      (handleClear s).1.responseData = .null ∧
      (handleClear s).1.error = .str [] ∧
      (handleClear s).1.loading = s.loading :=
  ⟨rfl, rfl, rfl, rfl, rfl⟩

/-! ## C10 -/

/-- C10: for every session state, every field name `f` (in particular the five
connection fields) and every string `v`, `handleConnectionChange` yields a state
whose connection has `f = v` and every other field unchanged, and leaves
`prompt`, `loading`, `responseData`, `error` and `showModal` unchanged; a
prompt edit changes `prompt` and nothing else. -/
theorem C10_field_edit_frame (s : State) (f v : JSString) :
    (handleConnectionChange f v s).connection.lookup f = some v ∧
      (∀ g, g ≠ f →
        (handleConnectionChange f v s).connection.lookup g = s.connection.lookup g) ∧
      handleConnectionChange f v s =
        { s with connection := (handleConnectionChange f v s).connection } ∧
      (handleConnectionChange f v s).prompt = s.prompt ∧
      (handleConnectionChange f v s).loading = s.loading ∧
      (handleConnectionChange f v s).responseData = s.responseData ∧
      (handleConnectionChange f v s).error = s.error ∧
      setPrompt v s = { s with prompt := v } ∧
      (setPrompt v s).connection = s.connection ∧
      (setPrompt v s).loading = s.loading ∧
      (setPrompt v s).responseData = s.responseData ∧
      (setPrompt v s).error = s.error :=
  ⟨lookup_objSet_self _ _ _, fun _ hg => lookup_objSet_other _ _ _ _ hg,
   rfl, rfl, rfl, rfl, rfl, rfl, rfl, rfl, rfl, rfl⟩

theorem C10_field_edit_frame_witness :
    (handleConnectionChange (jsString "port") (jsString "5432")
        State.initial).connection.lookup (jsString "host") =
      State.initial.connection.lookup (jsString "host") :=
  (C10_field_edit_frame State.initial (jsString "port") (jsString "5432")).2.1
    (jsString "host") (by decide)

/-! ## C4 -/

/-- C4, as stated, fails: the component reads the row sequence from the key
`data`.  The scenario payload, with its rows under `rows`, is stored as the
result, and the table renders no header cell and no body row. -/
theorem C4_counterexample :
    (submitThenSettle (withPrompt "show all users") (.decoded payloadRows)).1.responseData =
        payloadRows ∧
      renderResponse payloadRows = .ok (some { sql := sqlUsers, head := [], body := [] }) :=
  ⟨rfl, rfl⟩

/-- C4, amended: for every state with a non-blank prompt and every gateway
payload that is an object with members `sql` and `data`, `data` a sequence of
row objects, and with no truthy `error` member, settling stores the payload as
`responseData`, whose `sql` is the payload `sql`, clears `loading`, leaves
`error` empty and emits one success toast; the rendered table has one body row
per element of `data`, and its header cells are the keys of the first row in
order. -/
theorem C4_success_payload (s : State) (props : List (JSString × JSValue))
    (sql : JSValue) (rows : List (List (JSString × JSValue)))
    (hp : jsTrim s.prompt ≠ [])
    (he : ((props.lookup keyError).getD .undefined).truthy = false)
    (hs : props.lookup keySql = some sql)
    (hd : props.lookup keyData = some (.arr (rows.map .obj))) :
    submitThenSettle s (.decoded (.obj props)) =
        ({ s with error := .str [], responseData := .obj props, loading := false },
         [⟨.success, .str msgSuccess⟩]) ∧
      (JSValue.obj props).getProp keySql = .ok sql ∧
      renderResponse (.obj props) =
        .ok (some { sql := sql
                    head := (rows.headD []).map Prod.fst
                    body := rows.map (List.map Prod.snd) }) ∧
      (rows.map (List.map Prod.snd)).length = rows.length := by
  refine ⟨?_, getProp_obj _ _ _ hs, ?_, List.length_map _ _⟩
  · unfold submitThenSettle
    rw [handleSubmit_nonblank s hp]
    simp only [List.nil_append]
    rw [handleSubmitSettle_success _ (.obj props) _ rfl he]
  · unfold renderResponse
    rw [if_pos (show (JSValue.obj props).truthy = true from rfl),
      getProp_obj _ _ _ hs, getProp_obj _ _ _ hd]
    simp only [bind, Except.bind, renderTable_objects]
    rfl

theorem C4_success_payload_witness :
    submitThenSettle (withPrompt "show all users") (.decoded (.obj payloadData)) =
        ({ withPrompt "show all users" with
             error := .str [], responseData := .obj payloadData, loading := false },
         [⟨.success, .str msgSuccess⟩]) ∧
      (JSValue.obj payloadData).getProp keySql = .ok sqlUsers ∧
      renderResponse (.obj payloadData) =
        .ok (some { sql := sqlUsers
                    head := [jsString "id", jsString "name"]
                    body := [[.num 1, .str (jsString "Ann")], [.num 2, .str (jsString "Bo")]] }) ∧
      ([rowAnn, rowBo].map (List.map Prod.snd)).length = 2 :=
  C4_success_payload (withPrompt "show all users") payloadData sqlUsers [rowAnn, rowBo]
    (by decide) rfl rfl rfl

/-! ## C9 -/

/-- C9, as stated, fails: a field of a later row whose key is absent from the
first row is not dropped.  For the rows `id: 1` and `id: 2, name: Bo` the header
has the one cell `id` and the second body row has two cells. -/
theorem C9_counterexample :
    renderTable (.arr [.obj [(jsString "id", .num 1)], .obj rowBo]) =
        .ok ([jsString "id"], [[.num 1], [.num 2, .str (jsString "Bo")]]) ∧
      tableShape (renderTable (.arr [.obj [(jsString "id", .num 1)], .obj rowBo])) =
        some (1, [1, 2]) :=
  ⟨rfl, rfl⟩

/-- C9, amended: for every sequence of row objects the header cells are the
keys of the first row only, in order, and every body row has exactly one cell
for each field of that same row, in the order of that row: cell `j` of body row
`n` is the value of field `j` of row `n`, whatever its key.  A field of a later
row whose key is absent from the first row is therefore not dropped, and a body
row can have more or fewer cells than the header.  For the empty row sequence
the table has no header cell and no body row. -/
theorem C9_table_cells (rows : List (List (JSString × JSValue))) :
    renderTable (.arr (rows.map JSValue.obj)) =
        .ok ((rows.headD []).map Prod.fst, rows.map (List.map Prod.snd)) ∧
      tableShape (renderTable (.arr (rows.map JSValue.obj))) =
        some ((rows.headD []).length, rows.map List.length) ∧
      (∀ n j : Nat,
        ((rows.map (List.map Prod.snd))[n]?).bind (fun cells => cells[j]?) =
          ((rows[n]?).bind (fun row => row[j]?)).map Prod.snd) ∧
      renderTable (.arr []) = .ok ([], []) := by
  refine ⟨renderTable_objects rows, ?_, ?_, rfl⟩
  · rw [renderTable_objects]
    simp [tableShape, Function.comp_def]
  · intro n j
    rw [List.getElem?_map]
    cases rows[n]? with
    | none => rfl
    | some row => simp [List.getElem?_map]

/-! ## C6 -/

/-- C6: in every session reachable from the initial one by any sequence of
events of the component (`handleSubmit`, which the Run Query button, disabled
while `loading`, is the only caller of; the settling of a pending gateway call
with any outcome; `handleClear`; prompt and connection edits; Copy; the
dialog), `responseData` and `error` are never both populated; and
`handleSubmit` on a non-blank prompt, from any state whatever, clears both and
issues the request. -/
theorem C6_result_error_exclusive (es : List Event) (c : Config)
    (hr : run Config.initial es = some c) (s : State) (hs : jsTrim s.prompt ≠ []) :
    ¬ (c.state.responseData ≠ .null ∧ c.state.error ≠ .str []) ∧
      (handleSubmit s).1.responseData = .null ∧
      (handleSubmit s).1.error = .str [] ∧
      (handleSubmit s).2.2.isSome = true := by
  refine ⟨?_, ?_⟩
  · obtain ⟨_, _, _, h4⟩ := inv_run es _ c inv_initial hr
    rintro ⟨h5, h6⟩
    rcases h4 with h | h
    · exact h5 h
    · exact h6 h
  · rw [handleSubmit_nonblank s hs]
    exact ⟨rfl, rfl, rfl⟩

theorem C6_result_error_exclusive_witness :
    ¬ (sessionEnd.state.responseData ≠ .null ∧ sessionEnd.state.error ≠ .str []) ∧
      (handleSubmit { withPrompt "q" with
          responseData := .obj payloadData, error := .str msgFailed }).1.responseData = .null ∧
      (handleSubmit { withPrompt "q" with
          responseData := .obj payloadData, error := .str msgFailed }).1.error = .str [] ∧
      (handleSubmit { withPrompt "q" with
          responseData := .obj payloadData, error := .str msgFailed }).2.2.isSome = true :=
  C6_result_error_exclusive sessionEvents sessionEnd rfl
    { withPrompt "q" with responseData := .obj payloadData, error := .str msgFailed }
    (by decide)

/-! ## C7 -/

/-- C7, as stated, fails: `handleSubmit` has no guard on `loading`.  Invoked in
the reachable session where a submission is pending, it issues a second request
and changes the session: `loading` is true with two settling events pending. -/
theorem C7_counterexample :
    run Config.initial [.changePrompt (jsString "q"), .clickRunQuery] = some submittedConfig ∧
      submittedConfig.state.loading = true ∧
      (handleSubmit submittedConfig.state).2.2.isSome = true ∧
      runAnyCaller Config.initial
          [.changePrompt (jsString "q"), .clickRunQuery, .clickRunQuery] =
        some (applySubmit submittedConfig) ∧
      (applySubmit submittedConfig).state.loading = true ∧
      (applySubmit submittedConfig).inFlight.length = 2 ∧
      (applySubmit submittedConfig).sent.length = 2 :=
  ⟨rfl, rfl, rfl, rfl, rfl, rfl, rfl⟩

/-- C7, amended: in every session reachable from the initial one by events of
the interface, where the Run Query button is disabled while `loading` and so
`handleSubmit` runs only when `loading` is false, `loading` is true if and only
if exactly one gateway call is pending, and at most one is ever pending. -/
theorem C7_loading_iff_one_pending (es : List Event) (c : Config)
    (hr : run Config.initial es = some c) :
    (c.state.loading = true ↔ c.inFlight.length = 1) ∧ c.inFlight.length ≤ 1 := by
  obtain ⟨h1, h2, _, _⟩ := inv_run es _ c inv_initial hr
  exact ⟨h2, h1⟩

theorem C7_loading_iff_one_pending_witness :
    (submittedConfig.state.loading = true ↔ submittedConfig.inFlight.length = 1) ∧
      submittedConfig.inFlight.length ≤ 1 :=
  C7_loading_iff_one_pending [.changePrompt (jsString "q"), .clickRunQuery]
    submittedConfig rfl

/-! ## C8 -/

/-- C8, as stated, fails: there is no generation tag, and the settling of a
submission that a Clear has superseded is applied like any other.  After Run
Query and Clear the result is `null` and `loading` is true; the settling then
stores the payload and sets `loading` to false. -/
theorem C8_counterexample :
    run Config.initial [.changePrompt (jsString "q"), .clickRunQuery, .clickClear] =
        some (applyClear submittedConfig) ∧
      (applyClear submittedConfig).state.responseData = .null ∧
      (applyClear submittedConfig).state.loading = true ∧
      step (applyClear submittedConfig) (.settle 0 (.decoded (.obj payloadData))) =
        some (applySettle 0 (.decoded (.obj payloadData)) (applyClear submittedConfig)) ∧
      (applySettle 0 (.decoded (.obj payloadData)) (applyClear submittedConfig)).state.responseData =
        .obj payloadData ∧
      (applySettle 0 (.decoded (.obj payloadData)) (applyClear submittedConfig)).state.responseData ≠
        .null ∧
      (applySettle 0 (.decoded (.obj payloadData)) (applyClear submittedConfig)).state.loading =
        false :=
  ⟨rfl, rfl, rfl, rfl, rfl, fun h => JSValue.noConfusion h, rfl⟩

/-- C8, amended: the settling of a superseded submission is applied, not
discarded.  In every session reachable by events of the component in which a
gateway call is pending, whatever happened since its submission started (a
Clear, prompt and connection edits), the settling event is enabled, and it
arrives with `loading` true, `responseData` `null` and `error` empty.  In every
session whatever, also one in which another caller has started a newer
submission, the settling leaves `prompt`, the connection and the dialog flag as
they are when it arrives, sets `loading` to false and writes its outcome: the
fixed message as `error` on a transport failure, the non-empty message of an
error payload as `error`, the payload as `responseData` when it has no truthy
`error` member; the other of `error` and `responseData` stays as it is. -/
theorem C8_stale_settle_applied (es : List Event) (c : Config) (i : Nat)
    (hr : run Config.initial es = some c) (hi : i < c.inFlight.length) :
    (c.state.loading = true ∧ c.state.responseData = .null ∧ c.state.error = .str []) ∧
      (∀ o, step c (.settle i o) = some (applySettle i o c)) ∧
      (∀ (d : Config) (j : Nat) (o : Outcome) (err : JSError), awaitResult o = .error err →
        (applySettle j o d).state =
          { d.state with error := .str msgFailed, loading := false }) ∧
      (∀ (d : Config) (j : Nat) (props : List (JSString × JSValue)) (msg : JSString),
        msg ≠ [] → props.lookup keyError = some (.str msg) →
        (applySettle j (.decoded (.obj props)) d).state =
          { d.state with error := .str msg, loading := false }) ∧
      (∀ (d : Config) (j : Nat) (props : List (JSString × JSValue)),
        ((props.lookup keyError).getD .undefined).truthy = false →
        (applySettle j (.decoded (.obj props)) d).state =
          { d.state with responseData := .obj props, loading := false }) := by
  obtain ⟨h1, h2, h3, _⟩ := inv_run es _ c inv_initial hr
  have hl : c.state.loading = true := h2.2 (by omega)
  refine ⟨⟨hl, h3 hl⟩, ?_, ?_, ?_, ?_⟩
  · intro o
    simp only [step, if_pos hi]
  · intro d j o err ho
    simp only [applySettle]
    rw [handleSubmitSettle_rejected o _ ho]
  · intro d j props msg hm he
    simp only [applySettle]
    rw [handleSubmitSettle_error _ _ (.str msg) (getProp_obj _ _ _ he)
      (by simp [JSValue.truthy, hm])]
  · intro d j props he
    simp only [applySettle]
    rw [handleSubmitSettle_success _ (.obj props) _ rfl he]

theorem C8_stale_settle_applied_witness :
    (clearedThenEdited.state.loading = true ∧
        clearedThenEdited.state.responseData = .null ∧
        clearedThenEdited.state.error = .str []) ∧
      step clearedThenEdited (.settle 0 (.decoded (.obj payloadData))) =
        some (applySettle 0 (.decoded (.obj payloadData)) clearedThenEdited) ∧
      (applySettle 0 (.decoded (.obj payloadData)) clearedThenEdited).state =
        { withPrompt "x" with responseData := .obj payloadData, loading := false } :=
  have h := C8_stale_settle_applied
    [.changePrompt (jsString "q"), .clickRunQuery, .clickClear, .changePrompt (jsString "x")]
    clearedThenEdited 0 rfl (by decide)
  ⟨h.1, h.2.1 _, h.2.2.2.2 clearedThenEdited 0 payloadData rfl⟩

end TalkToDb
